import Mathlib

/-!
Shallow embedding of the spacetime_math crate (2D/3D vectors, quaternion
data type, coordinate-convention basis construction) and proofs of the
spec's claims about it.

The crate's `Scalar` (an IEEE floating-point type chosen at build time) is
modelled as the real numbers; `.sqrt()` is modelled by `Real.sqrt`.
Definitions mirror `src/vec2.rs`, `src/vec3.rs`, `src/quat.rs` and
`src/conventions.rs`. The `Vec3` arithmetic methods (`dot`,
`length_squared`, `length`, `distance_squared`, `distance`, `cross`,
`try_normalize`, `normalize_or`, `normalize_or_zero`) are called by
`conventions.rs` but their bodies are not among the supplied sources;
those are modelled from the spec (§4.1), which states that the `Vec2`
contract applies identically to the three-component type and gives the
`cross` formula explicitly. Each such definition is marked
`Modelled from the spec:`.
-/

namespace SpacetimeMath

noncomputable section

/-- The scalar type used throughout the crate (`src/scalar.rs`), modelled
as a real number. -/
abbrev Scalar : Type := ℝ

/-- A 2D vector using x and y (`src/vec2.rs`). -/
@[ext]
structure Vec2 where
  x : Scalar
  y : Scalar

/-- A 3-dimensional vector in a right-handed, Y-up coordinate system
(`src/vec3.rs`). -/
@[ext]
structure Vec3 where
  x : Scalar
  y : Scalar
  z : Scalar

namespace Vec3

/-- Constructor `Vec3::new`. -/
def new (x y z : Scalar) : Vec3 := ⟨x, y, z⟩

/-- Constant `Vec3::ZERO`. -/
def ZERO : Vec3 := new 0 0 0

/-- Constant `Vec3::ONE`. -/
def ONE : Vec3 := new 1 1 1

/-- Constant `Vec3::UP`. -/
def UP : Vec3 := new 0 1 0

/-- Constant `Vec3::DOWN`. -/
def DOWN : Vec3 := new 0 (-1) 0

/-- Constant `Vec3::RIGHT`. -/
def RIGHT : Vec3 := new 1 0 0

/-- Constant `Vec3::LEFT`. -/
def LEFT : Vec3 := new (-1) 0 0

/-- Constant `Vec3::BACKWARD`. -/
def BACKWARD : Vec3 := new 0 0 1

/-- Constant `Vec3::FORWARD`. -/
def FORWARD : Vec3 := new 0 0 (-1)

/-- Modelled from the spec: `Vec3::dot` is called by `conventions.rs`
tests but its body is not among the supplied sources; §4.1 says the dot
product is the sum of componentwise products, identically to `Vec2`. -/
def dot (a b : Vec3) : Scalar :=
  a.x * b.x + a.y * b.y + a.z * b.z

/-- Modelled from the spec: `Vec3::length_squared` is absent from the
supplied sources; §4.1 says it is the sum of squared components,
identically to `Vec2`. -/
def length_squared (v : Vec3) : Scalar :=
  v.x * v.x + v.y * v.y + v.z * v.z

/-- Modelled from the spec: `Vec3::length` is absent from the supplied
sources; §4.1 says it is the square root of `length_squared`. -/
def length (v : Vec3) : Scalar :=
  Real.sqrt v.length_squared

/-- Modelled from the spec: componentwise subtraction of 3D vectors,
which §4.1 assumes as the underlying difference for `distance_squared`. -/
def sub (a b : Vec3) : Vec3 :=
  new (a.x - b.x) (a.y - b.y) (a.z - b.z)

/-- Modelled from the spec: `Vec3::distance_squared` is absent from the
supplied sources; §4.1 says it is `length_squared` of the componentwise
difference. -/
def distance_squared (a b : Vec3) : Scalar :=
  (b.x - a.x) * (b.x - a.x) + (b.y - a.y) * (b.y - a.y) +
    (b.z - a.z) * (b.z - a.z)

/-- Modelled from the spec: `Vec3::distance` is absent from the supplied
sources; §4.1 says it is the square root of `distance_squared`. -/
def distance (a b : Vec3) : Scalar :=
  Real.sqrt (a.distance_squared b)

/-- Modelled from the spec: `Vec3::cross` is called by `conventions.rs`
but its body is not among the supplied sources; §4.1 gives the standard
3D cross product formula. -/
def cross (a b : Vec3) : Vec3 :=
  new (a.y * b.z - a.z * b.y) (a.z * b.x - a.x * b.z) (a.x * b.y - a.y * b.x)

/-- Modelled from the spec: componentwise negation, used by §4.1 to state
anti-commutativity of `cross`. -/
def neg (v : Vec3) : Vec3 :=
  new (-v.x) (-v.y) (-v.z)

/-- Modelled from the spec: scalar multiple of a 3D vector, used to state
that two vectors are parallel. -/
def smul (k : Scalar) (v : Vec3) : Vec3 :=
  new (k * v.x) (k * v.y) (k * v.z)

/-- Modelled from the spec: `Vec3::try_normalize` is called by
`conventions.rs` but its body is not among the supplied sources; §4.1
says it compares `length_squared` against `epsilon^2` and otherwise
scales by the reciprocal length, identically to `Vec2::try_normalize`. -/
def try_normalize (v : Vec3) (epsilon : Scalar) : Option Vec3 :=
  let len_sq := v.length_squared
  let epsilon_sq := epsilon * epsilon
  if len_sq ≤ epsilon_sq then
    none
  else
    let len := Real.sqrt len_sq
    some (new (v.x / len) (v.y / len) (v.z / len))

/-- Modelled from the spec: `Vec3::normalize_or` is absent from the
supplied sources; §4.1 says it performs the same test and returns the
fallback on degeneracy. -/
def normalize_or (v : Vec3) (epsilon : Scalar) (fallback : Vec3) : Vec3 :=
  let len_sq := v.length_squared
  let epsilon_sq := epsilon * epsilon
  if len_sq ≤ epsilon_sq then
    fallback
  else
    let len := Real.sqrt len_sq
    new (v.x / len) (v.y / len) (v.z / len)

/-- Modelled from the spec: `Vec3::normalize_or_zero` is absent from the
supplied sources; §4.1 says it is `normalize_or` with the zero vector as
fallback. -/
def normalize_or_zero (v : Vec3) (epsilon : Scalar) : Vec3 :=
  v.normalize_or epsilon ZERO

end Vec3

namespace Vec2

/-- Constructor `Vec2::new`. -/
def new (x y : Scalar) : Vec2 := ⟨x, y⟩

/-- Constant `Vec2::ZERO`. -/
def ZERO : Vec2 := new 0 0

/-- Constant `Vec2::ONE`. -/
def ONE : Vec2 := new 1 1

/-- Extend this vector into 3D by inserting `y` and treating this vector
as XZ (`Vec2::extend_y`). -/
def extend_y (v : Vec2) (y : Scalar) : Vec3 :=
  Vec3.new v.x y v.y

/-- Extend this vector into 3D by inserting `z` and treating this vector
as XY (`Vec2::extend_z`). -/
def extend_z (v : Vec2) (z : Scalar) : Vec3 :=
  Vec3.new v.x v.y z

/-- Dot product of this vector and `other` (`Vec2::dot`). -/
def dot (a other : Vec2) : Scalar :=
  a.x * other.x + a.y * other.y

/-- Squared length of this vector (`Vec2::length_squared`). -/
def length_squared (v : Vec2) : Scalar :=
  v.x * v.x + v.y * v.y

/-- Length of this vector (`Vec2::length`). -/
def length (v : Vec2) : Scalar :=
  Real.sqrt v.length_squared

/-- Squared distance between this vector and `other`
(`Vec2::distance_squared`). -/
def distance_squared (v other : Vec2) : Scalar :=
  let dx := other.x - v.x
  let dy := other.y - v.y
  dx * dx + dy * dy

/-- Distance between this vector and `other` (`Vec2::distance`). -/
def distance (v other : Vec2) : Scalar :=
  Real.sqrt (v.distance_squared other)

/-- Modelled from the spec: componentwise subtraction of 2D vectors,
which §4.1 assumes as the underlying difference for `distance_squared`
(no `Sub` impl appears in the supplied sources). -/
def sub (a b : Vec2) : Vec2 :=
  new (a.x - b.x) (a.y - b.y)

/-- Normalized vector, or `fallback` if length is below `epsilon`
(`Vec2::normalize_or`). -/
def normalize_or (v : Vec2) (epsilon : Scalar) (fallback : Vec2) : Vec2 :=
  let len_sq := v.length_squared
  let epsilon_sq := epsilon * epsilon
  if len_sq ≤ epsilon_sq then
    fallback
  else
    let len := Real.sqrt len_sq
    new (v.x / len) (v.y / len)

/-- Normalized vector, or `Vec2::ZERO` if length is below `epsilon`
(`Vec2::normalize_or_zero`). -/
def normalize_or_zero (v : Vec2) (epsilon : Scalar) : Vec2 :=
  v.normalize_or epsilon ZERO

/-- Attempts to normalize this vector, returning `none` if length is
below `epsilon` (`Vec2::try_normalize`). -/
def try_normalize (v : Vec2) (epsilon : Scalar) : Option Vec2 :=
  let len_sq := v.length_squared
  let epsilon_sq := epsilon * epsilon
  if len_sq ≤ epsilon_sq then
    none
  else
    let len := Real.sqrt len_sq
    some (new (v.x / len) (v.y / len))

end Vec2

namespace Vec3

/-- Modelled from the spec: projection of a `Vec3` onto its XY plane,
the stated inverse of `Vec2::extend_z` (§4.1); not among the supplied
sources. -/
def xy (v : Vec3) : Vec2 :=
  Vec2.new v.x v.y

/-- Modelled from the spec: projection of a `Vec3` onto its XZ plane,
the stated inverse of `Vec2::extend_y` (§4.1, and the doc comment on
`Vec2::extend_y`); not among the supplied sources. -/
def xz (v : Vec3) : Vec2 :=
  Vec2.new v.x v.z

end Vec3

/-- A quaternion representing 3D rotation (`src/quat.rs`). -/
@[ext]
structure Quat where
  x : Scalar
  y : Scalar
  z : Scalar
  w : Scalar

namespace Quat

/-- Constructor `Quat::new`. -/
def new (x y z w : Scalar) : Quat := ⟨x, y, z, w⟩

/-- The "No Rotation" quaternion (`Quat::IDENTITY`). -/
def IDENTITY : Quat := new 0 0 0 1

/-- The `Default` impl for `Quat`: returns `IDENTITY`. -/
def default : Quat := IDENTITY

end Quat

/-- Orthonormal axes describing a coordinate system's orientation
(`src/conventions.rs`). -/
@[ext]
structure Axes where
  up : Vec3
  forward : Vec3
  right : Vec3

namespace Axes

/-- Builds a right-handed orthonormal basis from `up` and `forward`
(`Axes::try_right_handed`); `none` if the inputs are too small or nearly
parallel. The Rust `?` operator is modelled with `Option.bind`. -/
def try_right_handed (up forward : Vec3) (epsilon : Scalar) : Option Axes :=
  (up.try_normalize epsilon).bind fun u =>
    (forward.try_normalize epsilon).bind fun f =>
      ((f.cross u).try_normalize epsilon).bind fun r =>
        some ⟨u, u.cross r, r⟩

/-- Builds a left-handed orthonormal basis from `up` and `forward`
(`Axes::try_left_handed`); `none` if the inputs are too small or nearly
parallel. -/
def try_left_handed (up forward : Vec3) (epsilon : Scalar) : Option Axes :=
  (up.try_normalize epsilon).bind fun u =>
    (forward.try_normalize epsilon).bind fun f =>
      ((u.cross f).try_normalize epsilon).bind fun r =>
        some ⟨u, r.cross u, r⟩

/-- The orthonormality invariant checked by `assert_axes_orthonormal` in
the `conventions.rs` tests: pairwise dot products 0, squared lengths 1. -/
def orthonormal (a : Axes) : Prop :=
  a.up.dot a.forward = 0 ∧ a.up.dot a.right = 0 ∧ a.forward.dot a.right = 0 ∧
    a.up.length_squared = 1 ∧ a.forward.length_squared = 1 ∧
    a.right.length_squared = 1

end Axes

/-- Preset `Y_UP_RIGHT_HANDED_FWD_NEG_Z` (`src/conventions.rs`). -/
def Y_UP_RIGHT_HANDED_FWD_NEG_Z : Axes :=
  ⟨Vec3.new 0 1 0, Vec3.new 0 0 (-1), Vec3.new 1 0 0⟩

/-- Preset `Y_UP_RIGHT_HANDED_FWD_POS_Z` (`src/conventions.rs`). -/
def Y_UP_RIGHT_HANDED_FWD_POS_Z : Axes :=
  ⟨Vec3.new 0 1 0, Vec3.new 0 0 1, Vec3.new (-1) 0 0⟩

/-- Preset `Y_UP_LEFT_HANDED_FWD_POS_Z` (`src/conventions.rs`). -/
def Y_UP_LEFT_HANDED_FWD_POS_Z : Axes :=
  ⟨Vec3.new 0 1 0, Vec3.new 0 0 1, Vec3.new 1 0 0⟩

/-- Preset `Z_UP_RIGHT_HANDED_FWD_POS_Y` (`src/conventions.rs`). -/
def Z_UP_RIGHT_HANDED_FWD_POS_Y : Axes :=
  ⟨Vec3.new 0 0 1, Vec3.new 0 1 0, Vec3.new 1 0 0⟩

/-- Preset `Z_UP_LEFT_HANDED_FWD_POS_X` (`src/conventions.rs`). -/
def Z_UP_LEFT_HANDED_FWD_POS_X : Axes :=
  ⟨Vec3.new 0 0 1, Vec3.new 1 0 0, Vec3.new 0 1 0⟩

/-- Default coordinate convention (`src/conventions.rs`). -/
def DEFAULT : Axes := Y_UP_RIGHT_HANDED_FWD_NEG_Z

/-! Helper lemmas shared by the claim proofs. -/

/-- The cross product of a vector with itself vanishes. -/
theorem Vec3.cross_self (a : Vec3) : a.cross a = Vec3.ZERO := by
  ext <;> simp [Vec3.cross, Vec3.ZERO, Vec3.new] <;> ring

/-- Normalizing the zero vector always fails, since `0 ≤ epsilon^2`. -/
theorem Vec3.try_normalize_zero (epsilon : Scalar) :
    Vec3.ZERO.try_normalize epsilon = none := by
  have h0 : (0:ℝ) ≤ epsilon * epsilon := mul_self_nonneg epsilon
  simp [Vec3.try_normalize, Vec3.length_squared, Vec3.ZERO, Vec3.new, h0]

/-- Normalizing a vector of squared length one returns it unchanged when
`epsilon^2 < 1`. -/
theorem Vec3.try_normalize_of_unit (v : Vec3) (epsilon : Scalar)
    (hlen : v.length_squared = 1) (heps : epsilon * epsilon < 1) :
    v.try_normalize epsilon = some v := by
  simp only [Vec3.try_normalize, hlen]
  rw [if_neg (not_le.mpr heps), Real.sqrt_one]
  simp [Vec3.new]

/-! Claim theorems. -/

/-- Claim C4: for every `Vec2` value `v` and every `epsilon`,
`try_normalize v epsilon` returns no value iff
`length_squared v ≤ epsilon^2`; otherwise it returns `v` with each
component divided by `length v`. -/
theorem vec2_try_normalize_spec (v : Vec2) (epsilon : Scalar) :
    (v.try_normalize epsilon = none ↔ v.length_squared ≤ epsilon ^ 2) ∧
    (¬ v.length_squared ≤ epsilon ^ 2 →
      v.try_normalize epsilon =
        some (Vec2.new (v.x / v.length) (v.y / v.length))) := by
  rw [pow_two]
  constructor
  · by_cases h : v.length_squared ≤ epsilon * epsilon <;>
      simp [Vec2.try_normalize, h]
  · intro h
    simp [Vec2.try_normalize, h, Vec2.length]

/-- Witness for C4 at `v = (3,4)`, `epsilon = 1`: the degeneracy test
fails and the result is `(3/5, 4/5)`. -/
theorem vec2_try_normalize_spec_witness :
    ¬ (Vec2.new 3 4).length_squared ≤ (1:Scalar) ^ 2 ∧
    (Vec2.new 3 4).try_normalize 1 = some (Vec2.new (3 / 5) (4 / 5)) := by
  have h : ¬ (Vec2.new 3 4).length_squared ≤ (1:Scalar) ^ 2 := by
    norm_num [Vec2.length_squared, Vec2.new]
  refine ⟨h, ?_⟩
  have h2 := (vec2_try_normalize_spec (Vec2.new 3 4) 1).2 h
  have hlen : (Vec2.new 3 4).length = 5 := by
    rw [Vec2.length,
      show (Vec2.new 3 4).length_squared = 25 by
        norm_num [Vec2.length_squared, Vec2.new],
      show (25:ℝ) = 5 ^ 2 by norm_num]
    exact Real.sqrt_sq (by norm_num)
  rw [h2, hlen]
  norm_num [Vec2.new]

/-- Claim C6: `normalize_or` performs the same degeneracy test as
`try_normalize`, returning its value when present and `fallback`
otherwise; `normalize_or_zero` is `normalize_or` with fallback `ZERO`;
the zero vector always degenerates. -/
theorem vec2_normalize_or_spec (v : Vec2) (epsilon : Scalar) (fallback : Vec2) :
    v.normalize_or epsilon fallback = (v.try_normalize epsilon).getD fallback ∧
    v.normalize_or_zero epsilon = v.normalize_or epsilon Vec2.ZERO ∧
    Vec2.ZERO.normalize_or_zero epsilon = Vec2.ZERO ∧
    Vec2.ZERO.normalize_or epsilon fallback = fallback := by
  have h0 : (0:ℝ) ≤ epsilon * epsilon := mul_self_nonneg epsilon
  refine ⟨?_, rfl, ?_, ?_⟩
  · by_cases h : v.length_squared ≤ epsilon * epsilon <;>
      simp [Vec2.normalize_or, Vec2.try_normalize, h]
  · simp [Vec2.normalize_or_zero, Vec2.normalize_or, Vec2.length_squared,
      Vec2.ZERO, Vec2.new, h0]
  · simp [Vec2.normalize_or, Vec2.length_squared, Vec2.ZERO, Vec2.new, h0]

/-- Claim C7: `distance_squared a b` is `length_squared` of the
componentwise difference, i.e. `(a.x-b.x)^2 + (a.y-b.y)^2`, and
`distance a b` is its square root. -/
theorem vec2_distance_spec (a b : Vec2) :
    a.distance_squared b = (a.sub b).length_squared ∧
    a.distance_squared b = (a.x - b.x) ^ 2 + (a.y - b.y) ^ 2 ∧
    a.distance b = Real.sqrt (a.distance_squared b) := by
  refine ⟨?_, ?_, rfl⟩ <;>
    simp only [Vec2.distance_squared, Vec2.sub, Vec2.length_squared, Vec2.new] <;>
    ring

/-- Claim C8: `extend_y` inserts at the Y slot treating the 2D vector as
XZ, `extend_z` inserts at the Z slot treating it as XY, and projecting
back onto the corresponding plane reproduces the 2D vector exactly. -/
theorem vec2_extend_spec (v : Vec2) (c : Scalar) :
    v.extend_y c = Vec3.new v.x c v.y ∧
    v.extend_z c = Vec3.new v.x v.y c ∧
    (v.extend_z c).xy = v ∧
    (v.extend_y c).xz = v :=
  ⟨rfl, rfl, rfl, rfl⟩

/-- Claim C9: the quaternion default value equals `IDENTITY`, whose
components are `(x:0, y:0, z:0, w:1)`. -/
theorem quat_default_identity :
    Quat.default = Quat.IDENTITY ∧ Quat.IDENTITY = Quat.new 0 0 0 1 ∧
    Quat.IDENTITY.x = 0 ∧ Quat.IDENTITY.y = 0 ∧ Quat.IDENTITY.z = 0 ∧
    Quat.IDENTITY.w = 1 :=
  ⟨rfl, rfl, rfl, rfl, rfl, rfl⟩

/-- Claim C5: each of the five named presets is exactly orthonormal, and
the `DEFAULT` preset equals the first preset, whose axes match the `Vec3`
world constants `UP`, `FORWARD` and `RIGHT`. -/
theorem axes_presets_orthonormal :
    Y_UP_RIGHT_HANDED_FWD_NEG_Z.orthonormal ∧
    Y_UP_RIGHT_HANDED_FWD_POS_Z.orthonormal ∧
    Y_UP_LEFT_HANDED_FWD_POS_Z.orthonormal ∧
    Z_UP_RIGHT_HANDED_FWD_POS_Y.orthonormal ∧
    Z_UP_LEFT_HANDED_FWD_POS_X.orthonormal ∧
    DEFAULT = Y_UP_RIGHT_HANDED_FWD_NEG_Z ∧
    DEFAULT.up = Vec3.UP ∧ DEFAULT.forward = Vec3.FORWARD ∧
    DEFAULT.right = Vec3.RIGHT := by
  refine ⟨?_, ?_, ?_, ?_, ?_, rfl, rfl, rfl, rfl⟩ <;>
    norm_num [Axes.orthonormal, Vec3.dot, Vec3.length_squared, Vec3.new,
      Y_UP_RIGHT_HANDED_FWD_NEG_Z, Y_UP_RIGHT_HANDED_FWD_POS_Z,
      Y_UP_LEFT_HANDED_FWD_POS_Z, Z_UP_RIGHT_HANDED_FWD_POS_Y,
      Z_UP_LEFT_HANDED_FWD_POS_X]

/-- Claim C1: `Vec3` provides the `Vec2` arithmetic and metric contract
(dot, length_squared, length, distance_squared, distance, try_normalize,
normalize_or, normalize_or_zero) plus a cross product with the standard
formula, anti-commutative, and zero on parallel inputs (including the
zero vector). -/
theorem vec3_cross_contract :
    (∀ a b : Vec3, a.cross b =
      Vec3.new (a.y * b.z - a.z * b.y) (a.z * b.x - a.x * b.z)
        (a.x * b.y - a.y * b.x)) ∧
    (∀ a b : Vec3, a.cross b = (b.cross a).neg) ∧
    (∀ a b : Vec3,
      ((∃ k, b = Vec3.smul k a) ∨ (∃ k, a = Vec3.smul k b)) →
        a.cross b = Vec3.ZERO) ∧
    (∀ a b : Vec3, a.dot b = a.x * b.x + a.y * b.y + a.z * b.z) ∧
    (∀ v : Vec3, v.length_squared = v.x * v.x + v.y * v.y + v.z * v.z) ∧
    (∀ v : Vec3, v.length = Real.sqrt v.length_squared) ∧
    (∀ a b : Vec3, a.distance_squared b = (a.sub b).length_squared) ∧
    (∀ a b : Vec3, a.distance b = Real.sqrt (a.distance_squared b)) ∧
    (∀ (v : Vec3) (epsilon : Scalar),
      v.try_normalize epsilon = none ↔
        v.length_squared ≤ epsilon * epsilon) ∧
    (∀ (v : Vec3) (epsilon : Scalar) (fallback : Vec3),
      v.normalize_or epsilon fallback =
        (v.try_normalize epsilon).getD fallback) ∧
    (∀ (v : Vec3) (epsilon : Scalar),
      v.normalize_or_zero epsilon = v.normalize_or epsilon Vec3.ZERO) := by
  refine ⟨fun a b => rfl, ?_, ?_, fun a b => rfl, fun v => rfl, fun v => rfl,
    ?_, fun a b => rfl, ?_, ?_, fun v epsilon => rfl⟩
  · intro a b
    ext <;> simp [Vec3.cross, Vec3.neg, Vec3.new] <;> ring
  · rintro a b (⟨k, rfl⟩ | ⟨k, rfl⟩) <;>
      ext <;> simp [Vec3.cross, Vec3.smul, Vec3.ZERO, Vec3.new] <;> ring
  · intro a b
    simp only [Vec3.distance_squared, Vec3.sub, Vec3.length_squared, Vec3.new]
    ring
  · intro v epsilon
    by_cases h : v.length_squared ≤ epsilon * epsilon <;>
      simp [Vec3.try_normalize, h]
  · intro v epsilon fallback
    by_cases h : v.length_squared ≤ epsilon * epsilon <;>
      simp [Vec3.normalize_or, Vec3.try_normalize, h]

/-- Witness for C1 at the parallel pair `a = (1,2,3)`, `b = (2,4,6)`:
the parallelism hypothesis holds with `k = 2` and the cross product is
the zero vector. -/
theorem vec3_cross_contract_witness :
    ((∃ k, Vec3.new 2 4 6 = Vec3.smul k (Vec3.new 1 2 3)) ∨
      (∃ k, Vec3.new 1 2 3 = Vec3.smul k (Vec3.new 2 4 6))) ∧
    (Vec3.new 1 2 3).cross (Vec3.new 2 4 6) = Vec3.ZERO := by
  have hp : (∃ k, Vec3.new 2 4 6 = Vec3.smul k (Vec3.new 1 2 3)) ∨
      (∃ k, Vec3.new 1 2 3 = Vec3.smul k (Vec3.new 2 4 6)) :=
    Or.inl ⟨2, by norm_num [Vec3.smul, Vec3.new, Vec3.mk.injEq]⟩
  exact ⟨hp, vec3_cross_contract.2.2.1 (Vec3.new 1 2 3) (Vec3.new 2 4 6) hp⟩

/-- Claim C2: both basis constructors return `none` exactly when one of
the three epsilon-gated normalizations fails (up, forward, or the cross
product of the two normalized inputs), and in particular both return
`none` for the parallel inputs `up = forward = (0,1,0)` at every
epsilon. -/
theorem axes_try_handed_none_iff :
    (∀ (up forward : Vec3) (epsilon : Scalar),
      Axes.try_right_handed up forward epsilon = none ↔
        up.try_normalize epsilon = none ∨
        forward.try_normalize epsilon = none ∨
        ∃ u f, up.try_normalize epsilon = some u ∧
          forward.try_normalize epsilon = some f ∧
          (f.cross u).try_normalize epsilon = none) ∧
    (∀ (up forward : Vec3) (epsilon : Scalar),
      Axes.try_left_handed up forward epsilon = none ↔
        up.try_normalize epsilon = none ∨
        forward.try_normalize epsilon = none ∨
        ∃ u f, up.try_normalize epsilon = some u ∧
          forward.try_normalize epsilon = some f ∧
          (u.cross f).try_normalize epsilon = none) ∧
    (∀ epsilon : Scalar,
      Axes.try_right_handed (Vec3.new 0 1 0) (Vec3.new 0 1 0) epsilon =
        none) ∧
    (∀ epsilon : Scalar,
      Axes.try_left_handed (Vec3.new 0 1 0) (Vec3.new 0 1 0) epsilon =
        none) := by
  refine ⟨?_, ?_, ?_, ?_⟩
  · intro up forward epsilon
    cases h1 : up.try_normalize epsilon with
    | none => simp [Axes.try_right_handed, h1]
    | some u =>
      cases h2 : forward.try_normalize epsilon with
      | none => simp [Axes.try_right_handed, h1, h2]
      | some f =>
        cases h3 : (f.cross u).try_normalize epsilon with
        | none => simp [Axes.try_right_handed, h1, h2, h3]
        | some r => simp [Axes.try_right_handed, h1, h2, h3]
  · intro up forward epsilon
    cases h1 : up.try_normalize epsilon with
    | none => simp [Axes.try_left_handed, h1]
    | some u =>
      cases h2 : forward.try_normalize epsilon with
      | none => simp [Axes.try_left_handed, h1, h2]
      | some f =>
        cases h3 : (u.cross f).try_normalize epsilon with
        | none => simp [Axes.try_left_handed, h1, h2, h3]
        | some r => simp [Axes.try_left_handed, h1, h2, h3]
  · intro epsilon
    cases h : (Vec3.new 0 1 0).try_normalize epsilon with
    | none => simp [Axes.try_right_handed, h]
    | some u =>
      simp [Axes.try_right_handed, h, Vec3.cross_self, Vec3.try_normalize_zero]
  · intro epsilon
    cases h : (Vec3.new 0 1 0).try_normalize epsilon with
    | none => simp [Axes.try_left_handed, h]
    | some u =>
      simp [Axes.try_left_handed, h, Vec3.cross_self, Vec3.try_normalize_zero]

/-- Claim C3: each named preset is reproduced exactly by the constructor
of its handedness applied to the preset's `up` and `forward` with
epsilon `1e-6`; the first case is the default preset. -/
theorem axes_presets_reproduced :
    Axes.try_right_handed (Vec3.new 0 1 0) (Vec3.new 0 0 (-1)) 1e-6 =
      some DEFAULT ∧
    Axes.try_right_handed (Vec3.new 0 1 0) (Vec3.new 0 0 1) 1e-6 =
      some Y_UP_RIGHT_HANDED_FWD_POS_Z ∧
    Axes.try_left_handed (Vec3.new 0 1 0) (Vec3.new 0 0 1) 1e-6 =
      some Y_UP_LEFT_HANDED_FWD_POS_Z ∧
    Axes.try_right_handed (Vec3.new 0 0 1) (Vec3.new 0 1 0) 1e-6 =
      some Z_UP_RIGHT_HANDED_FWD_POS_Y ∧
    Axes.try_left_handed (Vec3.new 0 0 1) (Vec3.new 1 0 0) 1e-6 =
      some Z_UP_LEFT_HANDED_FWD_POS_X := by
  have heps : ((1e-6 : ℝ)) * (1e-6 : ℝ) < 1 := by norm_num
  have n010 : (Vec3.new 0 1 0).try_normalize 1e-6 = some (Vec3.new 0 1 0) :=
    Vec3.try_normalize_of_unit _ _
      (by norm_num [Vec3.length_squared, Vec3.new]) heps
  have n00m1 :
      (Vec3.new 0 0 (-1)).try_normalize 1e-6 = some (Vec3.new 0 0 (-1)) :=
    Vec3.try_normalize_of_unit _ _
      (by norm_num [Vec3.length_squared, Vec3.new]) heps
  have n001 : (Vec3.new 0 0 1).try_normalize 1e-6 = some (Vec3.new 0 0 1) :=
    Vec3.try_normalize_of_unit _ _
      (by norm_num [Vec3.length_squared, Vec3.new]) heps
  have n100 : (Vec3.new 1 0 0).try_normalize 1e-6 = some (Vec3.new 1 0 0) :=
    Vec3.try_normalize_of_unit _ _
      (by norm_num [Vec3.length_squared, Vec3.new]) heps
  have nm100 :
      (Vec3.new (-1) 0 0).try_normalize 1e-6 = some (Vec3.new (-1) 0 0) :=
    Vec3.try_normalize_of_unit _ _
      (by norm_num [Vec3.length_squared, Vec3.new]) heps
  have c1a : (Vec3.new 0 0 (-1)).cross (Vec3.new 0 1 0) = Vec3.new 1 0 0 := by
    ext <;> norm_num [Vec3.cross, Vec3.new]
  have c1b : (Vec3.new 0 1 0).cross (Vec3.new 1 0 0) = Vec3.new 0 0 (-1) := by
    ext <;> norm_num [Vec3.cross, Vec3.new]
  have c2a : (Vec3.new 0 0 1).cross (Vec3.new 0 1 0) = Vec3.new (-1) 0 0 := by
    ext <;> norm_num [Vec3.cross, Vec3.new]
  have c2b : (Vec3.new 0 1 0).cross (Vec3.new (-1) 0 0) = Vec3.new 0 0 1 := by
    ext <;> norm_num [Vec3.cross, Vec3.new]
  have c3a : (Vec3.new 0 1 0).cross (Vec3.new 0 0 1) = Vec3.new 1 0 0 := by
    ext <;> norm_num [Vec3.cross, Vec3.new]
  have c3b : (Vec3.new 1 0 0).cross (Vec3.new 0 1 0) = Vec3.new 0 0 1 := by
    ext <;> norm_num [Vec3.cross, Vec3.new]
  have c4b : (Vec3.new 0 0 1).cross (Vec3.new 1 0 0) = Vec3.new 0 1 0 := by
    ext <;> norm_num [Vec3.cross, Vec3.new]
  refine ⟨?_, ?_, ?_, ?_, ?_⟩
  · simp [Axes.try_right_handed, n010, n00m1, c1a, n100, c1b, DEFAULT,
      Y_UP_RIGHT_HANDED_FWD_NEG_Z]
  · simp [Axes.try_right_handed, n010, n001, c2a, nm100, c2b,
      Y_UP_RIGHT_HANDED_FWD_POS_Z]
  · simp [Axes.try_left_handed, n010, n001, c3a, n100, c3b,
      Y_UP_LEFT_HANDED_FWD_POS_Z]
  · simp [Axes.try_right_handed, n001, n010, c3a, n100, c4b,
      Z_UP_RIGHT_HANDED_FWD_POS_Y]
  · simp [Axes.try_left_handed, n001, n100, c4b, n010, c3a,
      Z_UP_LEFT_HANDED_FWD_POS_X]

/-- Claim C10: the sign of `epsilon` is irrelevant to the normalization
operations, since only `epsilon * epsilon` is ever compared. -/
theorem epsilon_sign_irrelevant (v : Vec2) (epsilon : Scalar) (fallback : Vec2) :
    v.try_normalize epsilon = v.try_normalize (-epsilon) ∧
    v.normalize_or epsilon fallback = v.normalize_or (-epsilon) fallback := by
  constructor <;> simp [Vec2.try_normalize, Vec2.normalize_or, neg_mul_neg]

end

end SpacetimeMath
